import Mathlib

/-!
Verification of the status-reporting tools in this repository
(`tools/ci_check.py`, `tools/sonarcloud_check.py`, `tools/status.py`).

The pure formatting and decision logic of the three scripts is embedded
shallowly: network and subprocess results (workflow-run lists, quality-gate
JSON, measure lists, child exit codes) are inputs to the Lean functions,
and every string-building step of the Python code is mirrored by an
executable Lean definition.  Python exceptions that escape a function are
modelled by `Option`/outcome types.

Modelling conventions:
- Python `str` is modelled by `String`; `str.replace`, `str.split`,
  `str.strip`, `in` (substring test), `str.startswith`, `str.upper` and
  `sorted` on strings are re-implemented below on `List Char` with the
  code-point semantics CPython uses.
- Python `float` values produced by `float(<decimal string>)` are modelled
  exactly as scaled integers (`Deci`).  The scripts only compare such
  values against the integer thresholds 60 and 80 and print them with one
  decimal digit; at the precision the quality API emits, binary-float
  rounding never changes the result of those comparisons.
- `datetime.fromisoformat` is modelled for the ISO-8601 forms
  `YYYY-MM-DD[<sep>HH:MM[:SS[.f{1,6}]][+HH:MM|-HH:MM]]` that the function
  accepts on the canonical inputs of both APIs; a parse failure is `none`.
-/

/-! ### Python string primitives -/

/-- Value of a list of ASCII digit characters, most significant first. -/
def digitsVal (ds : List Char) : Nat :=
  ds.foldl (fun acc c => acc * 10 + (c.toNat - 48)) 0

/-- Fueled worker for `pyReplace`; one unit of fuel per consumed character. -/
def pyReplaceAux (pat rep : List Char) : Nat → List Char → List Char
  | _, [] => []
  | 0, l => l
  | fuel + 1, c :: rest =>
    if pat ≠ [] ∧ pat.isPrefixOf (c :: rest) then
      rep ++ pyReplaceAux pat rep fuel ((c :: rest).drop pat.length)
    else
      c :: pyReplaceAux pat rep fuel rest

/-- Python `s.replace(pat, rep)`: replace every (leftmost, non-overlapping)
occurrence of a non-empty `pat`. -/
def pyReplace (s pat rep : String) : String :=
  ⟨pyReplaceAux pat.data rep.data s.data.length s.data⟩

/-- Fueled worker for `pySplit`. -/
def pySplitAux (sep : List Char) : Nat → List Char → List Char → List (List Char)
  | _, acc, [] => [acc.reverse]
  | 0, acc, l => [acc.reverse ++ l]
  | fuel + 1, acc, c :: rest =>
    if sep ≠ [] ∧ sep.isPrefixOf (c :: rest) then
      acc.reverse :: pySplitAux sep fuel [] ((c :: rest).drop sep.length)
    else
      pySplitAux sep fuel (c :: acc) rest

/-- Python `s.split(sep)` for a non-empty separator. -/
def pySplit (s sep : String) : List String :=
  (pySplitAux sep.data s.data.length [] s.data).map String.mk

/-- Python `pat in s` (substring containment). -/
def containsSub (pat : List Char) : List Char → Bool
  | [] => pat.isEmpty
  | c :: rest => pat.isPrefixOf (c :: rest) || containsSub pat rest

/-- Python `s.startswith(p)`. -/
def pyStartsWith (s p : String) : Bool :=
  p.data.isPrefixOf s.data

/-- The characters Python `str.strip()` removes for ASCII input. -/
def isPySpace (c : Char) : Bool :=
  c = ' ' || c = '\t' || c = '\n' || c = '\r' || c = '\x0b' || c = '\x0c'

/-- Python `s.strip()` (ASCII whitespace). -/
def pyStrip (s : String) : String :=
  ⟨((s.data.dropWhile isPySpace).reverse.dropWhile isPySpace).reverse⟩

/-- Python `s.upper()` restricted to ASCII letters (the only inputs the
scripts feed it). -/
def pyUpper (s : String) : String :=
  ⟨s.data.map Char.toUpper⟩

/-! ### Code-point lexicographic order (Python string comparison) -/

/-- Strict lexicographic order on code-point sequences, as used by Python
string comparison and hence by `sorted` on strings. -/
def lexLtB : List Char → List Char → Bool
  | [], [] => false
  | [], _ :: _ => true
  | _ :: _, [] => false
  | a :: as, b :: bs =>
    if a < b then true
    else if b < a then false
    else lexLtB as bs

/-- Reflexive closure of `lexLtB` (total preorder used for sorting). -/
def lexLeB (a b : List Char) : Bool := !(lexLtB b a)

theorem lexLtB_irrefl : ∀ a : List Char, lexLtB a a = false
  | [] => rfl
  | c :: cs => by
    simp [lexLtB, lt_irrefl, lexLtB_irrefl cs]

theorem lexLtB_trans :
    ∀ a b c : List Char, lexLtB a b = true → lexLtB b c = true → lexLtB a c = true
  | [], _ :: _, _ :: _, _, _ => rfl
  | [], [], _, h, _ => by simp [lexLtB] at h
  | a, [], _, h1, _ => by cases a <;> simp [lexLtB] at h1
  | _ :: _, _ :: _, [], _, h2 => by simp [lexLtB] at h2
  | x :: xs, y :: ys, z :: zs, h1, h2 => by
    simp only [lexLtB] at h1 h2 ⊢
    by_cases hxy : x < y
    · by_cases hyz : y < z
      · simp [lt_trans hxy hyz]
      · by_cases hzy : z < y
        · simp [hyz, hzy] at h2
        · have : y = z := le_antisymm (not_lt.mp hzy) (not_lt.mp hyz)
          simp [this ▸ hxy]
    · by_cases hyx : y < x
      · simp [hxy, hyx] at h1
      · have hxy' : x = y := le_antisymm (not_lt.mp hyx) (not_lt.mp hxy)
        subst hxy'
        by_cases hxz : x < z
        · simp [hxz]
        · by_cases hzx : z < x
          · simp [hxz, hzx] at h2
          · simp [hxy, hxz, hzx] at h1 h2 ⊢
            exact lexLtB_trans xs ys zs h1 h2

theorem lexLtB_connex :
    ∀ a b : List Char, lexLtB a b = false → lexLtB b a = false → a = b
  | [], [], _, _ => rfl
  | [], _ :: _, h1, _ => by simp [lexLtB] at h1
  | _ :: _, [], _, h2 => by simp [lexLtB] at h2
  | x :: xs, y :: ys, h1, h2 => by
    simp only [lexLtB] at h1 h2
    by_cases hxy : x < y
    · simp [hxy] at h1
    · by_cases hyx : y < x
      · simp [hxy, hyx] at h2
      · have hxy' : x = y := le_antisymm (not_lt.mp hyx) (not_lt.mp hxy)
        subst hxy'
        simp [hxy] at h1 h2
        exact congrArg (x :: ·) (lexLtB_connex xs ys h1 h2)

/-- The ordering Python `sorted` uses on strings. -/
def strLe (a b : String) : Prop := lexLeB a.data b.data = true

instance (a b : String) : Decidable (strLe a b) :=
  inferInstanceAs (Decidable (_ = _))

instance : IsTotal String strLe where
  total a b := by
    unfold strLe lexLeB
    cases h : lexLtB b.data a.data
    · simp
    · right
      cases h2 : lexLtB a.data b.data
      · simp
      · have := lexLtB_trans _ _ _ h h2
        rw [lexLtB_irrefl] at this
        exact absurd this (by simp)

instance : IsTrans String strLe where
  trans a b c h1 h2 := by
    unfold strLe lexLeB at h1 h2 ⊢
    simp only [Bool.not_eq_true', Bool.not_eq_false] at h1 h2 ⊢
    cases hab : lexLtB a.data b.data
    · have : a.data = b.data := lexLtB_connex _ _ hab h1
      rw [← this] at h2
      exact h2
    · cases hca : lexLtB c.data a.data
      · rfl
      · have := lexLtB_trans _ _ _ hca hab
        rw [this] at h2
        exact h2.symm ▸ rfl

/-- Python `sorted` on a list of strings: the (unique, because the order is
antisymmetric) stable sort by code-point order. -/
def pySorted (l : List String) : List String :=
  List.insertionSort strLe l

theorem pySorted_sorted (l : List String) : (pySorted l).Sorted strLe :=
  List.sorted_insertionSort strLe l

theorem pySorted_perm (l : List String) : (pySorted l).Perm l :=
  List.perm_insertionSort strLe l

/-! ### Exact model of `float(<decimal string>)` values -/

/-- An exact scaled decimal: the value `num / 10 ^ shift`.  Stands in for the
Python floats the scripts obtain from `float(...)` on API metric strings. -/
structure Deci where
  num : Int
  shift : Nat
deriving DecidableEq

/-- Test that `x` is at least the integer `n` (the comparisons `cov >= 80`,
`cov >= 60` of the scripts). -/
def Deci.geInt (x : Deci) (n : Int) : Bool :=
  decide (n * (10 : Int) ^ x.shift ≤ x.num)

/-- Parse the exponent-free part of a decimal literal: digits with an
optional fractional part, as accepted by Python `float`. -/
def parseMantissa (cs : List Char) : Option (Nat × Nat × List Char) :=
  let ip := cs.takeWhile Char.isDigit
  let r1 := cs.dropWhile Char.isDigit
  match r1 with
  | '.' :: r2 =>
    let fp := r2.takeWhile Char.isDigit
    let r3 := r2.dropWhile Char.isDigit
    if ip.isEmpty && fp.isEmpty then none
    else some (digitsVal ip * 10 ^ fp.length + digitsVal fp, fp.length, r3)
  | _ =>
    if ip.isEmpty then none
    else some (digitsVal ip, 0, r1)

/-- Apply a base-ten exponent to a scaled decimal. -/
def applyExp (num : Int) (shift : Nat) (exp : Int) : Deci :=
  if 0 ≤ exp then
    let e := exp.toNat
    if shift ≤ e then ⟨num * (10 : Int) ^ (e - shift), 0⟩
    else ⟨num, shift - e⟩
  else ⟨num, shift + (-exp).toNat⟩

/-- Python `float(s)` on finite decimal literals
(`[ws] [sign] digits [. digits] [(e|E) [sign] digits] [ws]`), returned
exactly; anything else (including `inf`/`nan`, which the metric strings
never are) is `none`, standing for the `ValueError` path. -/
def pyFloat (s : String) : Option Deci := do
  let cs := (pyStrip s).data
  let (sign, cs) :=
    match cs with
    | '+' :: r => ((1 : Int), r)
    | '-' :: r => ((-1 : Int), r)
    | _ => ((1 : Int), cs)
  let (m, shift, rest) ← parseMantissa cs
  match rest with
  | [] => some ⟨sign * m, shift⟩
  | e :: r2 =>
    if e = 'e' ∨ e = 'E' then do
      let (esign, r3) :=
        match r2 with
        | '+' :: r => ((1 : Int), r)
        | '-' :: r => ((-1 : Int), r)
        | _ => ((1 : Int), r2)
      let ed := r3.takeWhile Char.isDigit
      if ed.isEmpty ∨ ¬(r3.dropWhile Char.isDigit).isEmpty then none
      else some (applyExp (sign * m) shift (esign * digitsVal ed))
    else none

/-- Round-half-even of `a / q` for natural numbers (`q ≠ 0`), the rounding
CPython uses when formatting with `:.1f`. -/
def rndHalfEven (a q : Nat) : Nat :=
  let d := a / q
  let r := a % q
  if 2 * r < q then d
  else if q < 2 * r then d + 1
  else if d % 2 = 0 then d else d + 1

/-- Python `f"{x:.1f}"` for a nonnegative exact decimal (file coverage is
never negative): round-half-even to one fractional digit and print it. -/
def formatFixed1 (x : Deci) : String :=
  let a := x.num.natAbs
  let n10 := if x.shift = 0 then a * 10 else rndHalfEven (a * 10) (10 ^ x.shift)
  (if x.num < 0 ∧ n10 ≠ 0 then "-" else "") ++
    Nat.repr (n10 / 10) ++ "." ++ Nat.repr (n10 % 10)

/-! ### Model of `datetime.fromisoformat` and `strftime` -/

/-- The fields of a parsed `datetime` that the fixed `strftime` patterns of
the scripts display.  The fractional second and UTC offset are validated by
the parser but never printed. -/
structure PyDateTime where
  year : Nat
  month : Nat
  day : Nat
  hour : Nat
  minute : Nat
  second : Nat
deriving DecidableEq

/-- Read exactly `n` ASCII digits, returning their value and the rest. -/
def takeDigits : Nat → Nat → List Char → Option (Nat × List Char)
  | acc, 0, l => some (acc, l)
  | _, _ + 1, [] => none
  | acc, n + 1, c :: rest =>
    if c.isDigit then takeDigits (acc * 10 + (c.toNat - 48)) n rest else none

/-- Require character `c` next. -/
def expectChar (c : Char) : List Char → Option (List Char)
  | [] => none
  | x :: rest => if x = c then some rest else none

/-- Gregorian leap year, as `datetime` validates dates. -/
def isLeap (y : Nat) : Bool :=
  y % 4 = 0 && (y % 100 ≠ 0 || y % 400 = 0)

/-- Days in a month, as `datetime` validates dates. -/
def daysInMonth (y m : Nat) : Nat :=
  if m = 2 then (if isLeap y then 29 else 28)
  else if m = 4 ∨ m = 6 ∨ m = 9 ∨ m = 11 then 30
  else 31

/-- Parse an optional `±HH:MM` UTC offset ending the string; `none` means
the string is malformed, `some true` that it was consumed. -/
def parseOffsetEnd : List Char → Option Bool
  | [] => some true
  | c :: rest =>
    if c = '+' ∨ c = '-' then do
      let (oh, r) ← takeDigits 0 2 rest
      let r ← expectChar ':' r
      let (om, r) ← takeDigits 0 2 r
      if r.isEmpty ∧ oh ≤ 23 ∧ om ≤ 59 then some true else none
    else none

/-- Parse `[:SS[.f{1,6}]]` then the optional offset. -/
def parseSecondsEnd (cs : List Char) : Option (Nat × Bool) :=
  match cs with
  | ':' :: r => do
    let (sec, r) ← takeDigits 0 2 r
    match r with
    | '.' :: r2 =>
      let fd := r2.takeWhile Char.isDigit
      if 1 ≤ fd.length ∧ fd.length ≤ 6 then do
        let tz ← parseOffsetEnd (r2.dropWhile Char.isDigit)
        some (sec, tz)
      else none
    | _ => do
      let tz ← parseOffsetEnd r
      some (sec, tz)
  | _ => do
    let tz ← parseOffsetEnd cs
    some (0, tz)

/-- Model of `datetime.fromisoformat` on the forms
`YYYY-MM-DD[<sep>HH:MM[:SS[.f{1,6}]][±HH:MM]]`, with calendar and clock
fields validated the way `datetime` does. -/
def pyFromIso (s : String) : Option PyDateTime := do
  let (y, r) ← takeDigits 0 4 s.data
  let r ← expectChar '-' r
  let (mo, r) ← takeDigits 0 2 r
  let r ← expectChar '-' r
  let (d, r) ← takeDigits 0 2 r
  if 1 ≤ mo ∧ mo ≤ 12 ∧ 1 ≤ d ∧ d ≤ daysInMonth y mo ∧ 1 ≤ y then
    match r with
    | [] => some ⟨y, mo, d, 0, 0, 0⟩
    | _sep :: r2 => do
      let (h, r3) ← takeDigits 0 2 r2
      let r4 ← expectChar ':' r3
      let (mi, r5) ← takeDigits 0 2 r4
      let (sec, _) ← parseSecondsEnd r5
      if h ≤ 23 ∧ mi ≤ 59 ∧ sec ≤ 59 then
        some ⟨y, mo, d, h, mi, sec⟩
      else none
  else none

/-- Two-digit zero-padded field (`%m`, `%d`, `%H`, `%M`, `%S`). -/
def pad2 (n : Nat) : String :=
  if n < 10 then "0" ++ Nat.repr n else Nat.repr n

/-- Four-digit zero-padded year (`%Y` for the years at hand). -/
def pad4 (n : Nat) : String :=
  if n < 10 then "000" ++ Nat.repr n
  else if n < 100 then "00" ++ Nat.repr n
  else if n < 1000 then "0" ++ Nat.repr n
  else Nat.repr n

/-- Python `dt.strftime("%Y-%m-%d %H:%M:%S")`. -/
def strftimeYmdHMS (dt : PyDateTime) : String :=
  pad4 dt.year ++ "-" ++ pad2 dt.month ++ "-" ++ pad2 dt.day ++ " " ++
    pad2 dt.hour ++ ":" ++ pad2 dt.minute ++ ":" ++ pad2 dt.second

/-! ### Embedding of `tools/ci_check.py` -/

/-- The rule `"=" * 70` printed in the report headers. -/
def eq70 : String := ⟨List.replicate 70 '='⟩

/-- The rule `"-" * 70` printed in the report sections. -/
def dash70 : String := ⟨List.replicate 70 '-'⟩

namespace CIChecker

/-- One workflow-run JSON object as returned by `gh run list --json ...`.
Every field is optional because the script reads each one with
`run.get(..., default)`. -/
structure Run where
  databaseId : Option Int
  name : Option String
  status : Option String
  conclusion : Option String
  createdAt : Option String
  headBranch : Option String
  event : Option String
deriving DecidableEq

/-- The icon / status-text chain of `format_run_status` (lines 91-115). -/
def runIconText (status conclusion : String) : String × String :=
  if status = "completed" then
    if conclusion = "success" then ("✅", "SUCCESS")
    else if conclusion = "failure" then ("❌", "FAILED")
    else if conclusion = "cancelled" then ("⚠️", "CANCELLED")
    else if conclusion = "skipped" then ("⚠️", "SKIPPED")
    else ("❓", pyUpper conclusion)
  else if status = "in_progress" then ("🔄", "IN PROGRESS")
  else if status = "queued" then ("⏳", "QUEUED")
  else ("❓", pyUpper status)

/-- The timestamp branch of `format_run_status` (lines 118-123): ISO parse
after `Z` normalization, verbatim fall-through on failure. -/
def formatTimeStr (created_at : String) : String :=
  match pyFromIso (pyReplace created_at "Z" "+00:00") with
  | some dt => strftimeYmdHMS dt
  | none => created_at

/-- The function `CIChecker.format_run_status`. -/
def format_run_status (run : Run) : String :=
  let status := run.status.getD "unknown"
  let conclusion := run.conclusion.getD "unknown"
  let it := runIconText status conclusion
  let time_str := formatTimeStr (run.createdAt.getD "")
  let name := run.name.getD "Unknown"
  let branch := run.headBranch.getD "unknown"
  let event := run.event.getD "unknown"
  let run_id := match run.databaseId with
    | some i => toString i
    | none => "?"
  it.1 ++ " " ++ it.2 ++ " - " ++ name ++ " (#" ++ run_id ++ ")\n   Branch: " ++
    branch ++ " | Event: " ++ event ++ " | Time: " ++ time_str

/-- The loop body of the summary counters of `format_status_report`
(lines 162-168): bump exactly one of (successful, failed, other), keyed on
`run.get("conclusion", "")`. -/
def summaryStep (acc : Nat × Nat × Nat) (run : Run) : Nat × Nat × Nat :=
  let conclusion := run.conclusion.getD ""
  if conclusion = "success" then (acc.1 + 1, acc.2.1, acc.2.2)
  else if conclusion = "failure" then (acc.1, acc.2.1 + 1, acc.2.2)
  else (acc.1, acc.2.1, acc.2.2 + 1)

/-- The summary counters of `format_status_report` (lines 155-168): one
pass over the fetched runs starting from `(0, 0, 0)`. -/
def summaryCounts (runs : List Run) : Nat × Nat × Nat :=
  runs.foldl summaryStep (0, 0, 0)

/-- The function `CIChecker.format_status_report` as its list of report lines; the
fetched run list is an input (the fetch itself is a subprocess call).
Mirrors lines 132-179; the script returns these joined with newlines. -/
def format_status_report (repo_owner repo_name : String) (workflow : Option String)
    (runs : List Run) : List String :=
  [eq70, "GitHub Actions CI Status", eq70,
    "Repository: " ++ repo_owner ++ "/" ++ repo_name] ++
  (match workflow with
    | some w => if w = "" then [] else ["Workflow: " ++ w]
    | none => []) ++
  [""] ++
  (if runs.isEmpty then
    ["No workflow runs found.", "", eq70]
  else
    ["Recent Runs (showing " ++ Nat.repr runs.length ++ "):", dash70] ++
    runs.map format_run_status ++
    (let c := summaryCounts runs
     ["", "Summary:", dash70,
      "  Successful: " ++ Nat.repr c.1,
      "  Failed: " ++ Nat.repr c.2.1,
      "  Other: " ++ Nat.repr c.2.2,
      "", eq70]))

/-- The gate decision of `main` (lines 216-220): exit 1 exactly when the
most-recent fetched run list is non-empty and its head concluded
`"failure"`, else exit 0. -/
def main_gate_exit (runs : List Run) : Int :=
  match runs with
  | [] => 0
  | r :: _ => if r.conclusion = some "failure" then 1 else 0

/-- Observable outcome of `CIChecker._detect_repo`, whose input is the
(stripped) output of `git remote get-url origin`, or `none` when that
command fails. `configError` is the caught `ValueError` /
`CalledProcessError` branch (guidance printed, `sys.exit(1)`);
`indexError` is the uncaught `IndexError` raised by `parts[1]`, which the
generic handler in `main` turns into exit code 1 without the guidance. -/
inductive DetectOutcome where
  | ok (owner repo : String)
  | configError
  | indexError
deriving DecidableEq

/-- The function `CIChecker._detect_repo` (lines 29-58). -/
def detect_repo (remote : Option String) : DetectOutcome :=
  match remote with
  | none => .configError
  | some out =>
    let remote_url := pyStrip out
    if containsSub "github.com".data remote_url.data then
      let parts? :=
        if pyStartsWith remote_url "git@github.com:" then
          some (pySplit (pyReplace (pyReplace remote_url "git@github.com:" "") ".git" "") "/")
        else if containsSub "github.com/".data remote_url.data then
          some (pySplit (pyReplace ((pySplit remote_url "github.com/").getLastD "") ".git" "") "/")
        else none
      match parts? with
      | none => .configError
      | some (p0 :: p1 :: _) => .ok p0 p1
      | some _ => .indexError
    else .configError

end CIChecker

/-! ### Embedding of `tools/sonarcloud_check.py` -/

namespace SonarCloudChecker

/-- One element of a `measures` JSON array: `m["metric"]` is always read
directly, `m.get("value", ...)` may be absent. -/
structure Measure where
  metric : String
  value : Option String
deriving DecidableEq

/-- One element of the `components` array of the coverage-detail request. -/
structure Component where
  path : Option String
  measures : List Measure
deriving DecidableEq

/-- The most recent analysis object (only its `date` field is read). -/
structure Analysis where
  date : Option String
deriving DecidableEq

/-- The dict comprehension `{m["metric"]: m.get("value", "0") for m in ...}`
of `get_project_measures`; later duplicates overwrite earlier ones. -/
def measuresDict (ms : List Measure) : List (String × String) :=
  ms.map (fun m => (m.metric, m.value.getD "0"))

/-- Python `d.get(k, dflt)` on an association list with last-wins keys. -/
def dictGet (d : List (String × String)) (k dflt : String) : String :=
  match d.reverse.find? (fun p => p.1 = k) with
  | some p => p.2
  | none => dflt

/-- The dict comprehension `{m["metric"]: m.get("value") for m in ...}` of
the file-coverage loop: values may be `None`. -/
def fileMeasuresDict (ms : List Measure) : List (String × Option String) :=
  ms.map (fun m => (m.metric, m.value))

/-- Python `k in d` / `d[k]` combined: `some v` when the key is present
(with its possibly-`None` value), `none` when absent. -/
def fdictFind (d : List (String × Option String)) (k : String) : Option (Option String) :=
  (d.reverse.find? (fun p => p.1 = k)).map Prod.snd

/-- Python `d.get(k, dflt)` rendered through an f-string: an absent key
gives the default, a stored `None` renders as `"None"`. -/
def fdictGetStr (d : List (String × Option String)) (k dflt : String) : String :=
  match fdictFind d k with
  | none => dflt
  | some none => "None"
  | some (some v) => v

/-- The coverage three-tier icon (lines 124 and 160):
`"✅" if cov >= 80 else "⚠️" if cov >= 60 else "❌"`. -/
def covIcon (v : Deci) : String :=
  if v.geInt 80 then "✅" else if v.geInt 60 then "⚠️" else "❌"

/-- The quality-gate icon (line 111):
`"✅" if status == "OK" else "❌" if status == "ERROR" else "⚠️"`. -/
def gateIcon (status : String) : String :=
  if status = "OK" then "✅" else if status = "ERROR" then "❌" else "⚠️"

/-- The `Last Analysis` date branch (lines 99-104): ISO parse after `Z`
normalization and reformat with a literal ` UTC` suffix, verbatim
fall-through on parse failure. -/
def formatDateStr (date_str : String) : String :=
  match pyFromIso (pyReplace date_str "Z" "+00:00") with
  | some dt => strftimeYmdHMS dt ++ " UTC"
  | none => date_str

/-- The project-coverage lines (lines 120-127).  `none` models the
uncaught `ValueError` of `float(coverage)` on a non-numeric value. -/
def coverageMetricLines (measures : List (String × String)) : Option (List String) :=
  let coverage := dictGet measures "coverage" "N/A"
  if coverage ≠ "N/A" then
    match pyFloat coverage with
    | some cov_val => some ["  Coverage: " ++ covIcon cov_val ++ " " ++ coverage ++ "%"]
    | none => none
  else some ["  Coverage: ❌ No data"]

/-- The partition loop of the file-coverage section (lines 151-165),
keeping fetch order inside each group.  `none` models the uncaught
`TypeError`/`ValueError` of `float(...)` on a `None` or non-numeric
coverage value. -/
def partitionFiles : List Component → Option (List String × List String)
  | [] => some ([], [])
  | f :: rest =>
    let fm := fileMeasuresDict f.measures
    let path := f.path.getD "Unknown"
    match fdictFind fm "coverage" with
    | some none => none
    | some (some vs) =>
      match pyFloat vs with
      | none => none
      | some cov =>
        (partitionFiles rest).map (fun p =>
          (("  " ++ covIcon cov ++ " " ++ path ++ ": " ++ formatFixed1 cov ++ "% (" ++
            fdictGetStr fm "lines_to_cover" "?" ++ " lines, " ++
            fdictGetStr fm "uncovered_lines" "?" ++ " uncovered)") :: p.1, p.2))
    | none =>
      (partitionFiles rest).map (fun p =>
        (p.1, ("  ❌ " ++ path ++ ": No coverage data") :: p.2))

/-- The file-coverage section (lines 146-182): each group sorted by Python
`sorted` on the formatted lines, groups concatenated with a blank line
when both are non-empty, followed by the totals. -/
def fileCoverageSection (coverage_detail : List Component) : Option (List String) :=
  if ¬coverage_detail.isEmpty then
    (partitionFiles coverage_detail).map (fun p =>
      ["File Coverage:", dash70] ++
      (if ¬p.1.isEmpty then pySorted p.1 else []) ++
      (if ¬p.2.isEmpty then (if ¬p.1.isEmpty then [""] else []) ++ pySorted p.2 else []) ++
      ["", "Total Files: " ++ Nat.repr coverage_detail.length,
        "With Coverage: " ++ Nat.repr p.1.length,
        "Without Coverage: " ++ Nat.repr p.2.length])
  else some ["No files found in analysis"]

/-- The post-fetch filter of `get_coverage_detail` (lines 78-79); an empty
filter string is falsy in Python and filters nothing. -/
def get_coverage_detail_filter (components : List Component) :
    Option String → List Component
  | some f =>
    if f = "" then components
    else components.filter (fun c => pyStartsWith (c.path.getD "") f)
  | none => components

/-- The data the four fetch helpers hand to `format_status_report`. -/
structure Fetched where
  analysis : Option Analysis
  gateStatus : Option String
  measures : List Measure
  coverageDetail : List Component
deriving DecidableEq

/-- The function `SonarCloudChecker.format_status_report` as its list of report lines
(the script returns them joined with newlines).  Mirrors lines 83-187;
`none` models an uncaught `float(...)` exception. -/
def format_status_report (project_key : String) (component : Option String)
    (d : Fetched) : Option (List String) :=
  let header :=
    [eq70, "SonarCloud Status Check", eq70, "Project: " ++ project_key] ++
    (match component with
      | some c => if c = "" then [] else ["Component: " ++ c]
      | none => []) ++
    [""]
  let analysisLines :=
    match d.analysis with
    | some a => ["Last Analysis: " ++ formatDateStr (a.date.getD "Unknown"), ""]
    | none => []
  let status := d.gateStatus.getD "UNKNOWN"
  let qgLines := ["Quality Gate: " ++ gateIcon status ++ " " ++ status, ""]
  let measures := measuresDict d.measures
  (coverageMetricLines measures).bind (fun covLines =>
    let bugs := dictGet measures "bugs" "0"
    let vulnerabilities := dictGet measures "vulnerabilities" "0"
    let code_smells := dictGet measures "code_smells" "0"
    let hotspots := dictGet measures "security_hotspots" "0"
    let bugs_icon := if bugs = "0" then "✅" else "❌"
    let vuln_icon := if vulnerabilities = "0" then "✅" else "❌"
    (fileCoverageSection d.coverageDetail).map (fun fileLines =>
      header ++ analysisLines ++ qgLines ++
      ["Project Metrics:", dash70] ++ covLines ++
      ["  Bugs: " ++ bugs_icon ++ " " ++ bugs,
        "  Vulnerabilities: " ++ vuln_icon ++ " " ++ vulnerabilities,
        "  Code Smells: " ++ code_smells,
        "  Security Hotspots: " ++ hotspots,
        "  Lines of Code: " ++ dictGet measures "lines" "0",
        ""] ++
      fileLines ++ ["", eq70]))

/-- The gate decision of `main` (lines 214-218): exit 1 exactly when
`projectStatus.get("status")` is `"ERROR"`. -/
def main_gate_exit (gateStatus : Option String) : Int :=
  if gateStatus = some "ERROR" then 1 else 0

end SonarCloudChecker

/-! ### Embedding of `tools/status.py` -/

namespace StatusTool

/-- The function `print_section_header` (lines 18-23), as the list of printed strings. -/
def print_section_header (title : String) : List String :=
  ["\n", eq70, "  " ++ title, eq70]

/-- The function `main` of `tools/status.py` (lines 39-126) as a pure function of the
two skip flags and the exit codes the two sub-checks would return, giving
(exit code, strings printed by this script, collected `exit_codes` list).
Child-process output is not modelled.  The `getD ... 1` index defaults are
unreachable: each summary line is only built when the matching sub-check
ran, so the index is in range. -/
def main (skip_ci skip_sonarcloud : Bool) (ciExit sonarExit : Int)
    (project : String) : Int × List String × List Int :=
  let header := [eq70, "PROJECT STATUS CHECK", eq70, "Project: " ++ project, eq70]
  let ciPart : List String × List Int :=
    if ¬skip_ci then (print_section_header "GITHUB ACTIONS CI", [ciExit]) else ([], [])
  let sonarPart : List String × List Int :=
    if ¬skip_sonarcloud then (print_section_header "SONARCLOUD ANALYSIS", [sonarExit])
    else ([], [])
  let exit_codes := ciPart.2 ++ sonarPart.2
  let summaryHead := ["\n", eq70, "OVERALL STATUS", eq70]
  let all_passed := exit_codes.all (fun code => code = 0)
  if all_passed then
    (0, header ++ ciPart.1 ++ sonarPart.1 ++ summaryHead ++
      ["✅ All checks passed!", "", eq70], exit_codes)
  else
    let ciLine :=
      if ¬skip_ci then
        ["  CI: " ++ (if exit_codes.getD 0 1 = 0 then "✅ PASSED" else "❌ FAILED")]
      else []
    let sonarLine :=
      if ¬skip_sonarcloud then
        let sonar_idx := if skip_ci then 0 else 1
        ["  SonarCloud: " ++
          (if exit_codes.getD sonar_idx 1 = 0 then "✅ PASSED" else "❌ FAILED")]
      else []
    (1, header ++ ciPart.1 ++ sonarPart.1 ++ summaryHead ++
      ["❌ Some checks failed!", ""] ++ ciLine ++ sonarLine ++ ["", eq70], exit_codes)

end StatusTool

/-- Two fetched file-coverage entries whose formatted lines carry different
icons; used to exercise the display order of the file-coverage section. -/
def twoFileCoverageSample : List SonarCloudChecker.Component :=
  [⟨some "a.py", [⟨"coverage", some "50.0"⟩, ⟨"lines_to_cover", some "10"⟩,
    ⟨"uncovered_lines", some "5"⟩]⟩,
   ⟨some "b.py", [⟨"coverage", some "90.0"⟩, ⟨"lines_to_cover", some "10"⟩,
    ⟨"uncovered_lines", some "1"⟩]⟩]

/-- The formatted lines the sample's entries with coverage data produce,
in fetch order. -/
def sampleWithLines : List String :=
  ["  ❌ a.py: 50.0% (10 lines, 5 uncovered)",
   "  ✅ b.py: 90.0% (10 lines, 1 uncovered)"]

/-- The sample has no entries without coverage data. -/
def sampleWithoutLines : List String := []

/-! ### Claims -/

/-- C5: for run records with status `"completed"`, the formatter maps the
conclusions `success` / `failure` / `cancelled` / `skipped` to their icon
and label, and every other string-valued conclusion degrades to the `❓`
marker with the upper-cased conclusion, totally (no exception); a full
record with an unrecognized conclusion still formats end to end. -/
theorem completed_conclusion_mapping :
    CIChecker.runIconText "completed" "success" = ("✅", "SUCCESS") ∧
    CIChecker.runIconText "completed" "failure" = ("❌", "FAILED") ∧
    CIChecker.runIconText "completed" "cancelled" = ("⚠️", "CANCELLED") ∧
    CIChecker.runIconText "completed" "skipped" = ("⚠️", "SKIPPED") ∧
    (∀ c : String, c ≠ "success" → c ≠ "failure" → c ≠ "cancelled" → c ≠ "skipped" →
      CIChecker.runIconText "completed" c = ("❓", pyUpper c)) ∧
    CIChecker.format_run_status
        ⟨some 123, some "CI", some "completed", some "timed_out",
          some "2024-01-15T10:30:00Z", some "main", some "push"⟩ =
      "❓ TIMED_OUT - CI (#123)\n   Branch: main | Event: push | Time: 2024-01-15 10:30:00" := by
  refine ⟨by decide, by decide, by decide, by decide, ?_, by decide⟩
  intro c h1 h2 h3 h4
  simp [CIChecker.runIconText, h1, h2, h3, h4]

/-- C6: the three summary counts (successful, failed, other) that
`format_status_report` prints always sum to the number of fetched runs. -/
theorem summary_counts_match_length (runs : List CIChecker.Run) :
    (CIChecker.summaryCounts runs).1 + (CIChecker.summaryCounts runs).2.1 +
      (CIChecker.summaryCounts runs).2.2 = runs.length := by
  suffices h : ∀ (l : List CIChecker.Run) (acc : Nat × Nat × Nat),
      (l.foldl CIChecker.summaryStep acc).1 + (l.foldl CIChecker.summaryStep acc).2.1 +
        (l.foldl CIChecker.summaryStep acc).2.2 = acc.1 + acc.2.1 + acc.2.2 + l.length by
    simpa [CIChecker.summaryCounts] using h runs (0, 0, 0)
  intro l
  induction l with
  | nil => intro acc; simp
  | cons r t ih =>
    intro acc
    rw [List.foldl_cons, ih, List.length_cons]
    simp only [CIChecker.summaryStep]
    split_ifs <;> simp <;> omega

/-- C7: on an empty fetched run list the report contains the line
`No workflow runs found.` and the exit-code decision of `main` treats the
empty list as healthy (exit 0), not as a failure. -/
theorem empty_runs_valid_state (owner repo : String) (workflow : Option String) :
    "No workflow runs found." ∈ CIChecker.format_status_report owner repo workflow [] ∧
    CIChecker.main_gate_exit [] = 0 := by
  constructor
  · simp [CIChecker.format_status_report, List.mem_append]
  · rfl

/-- C8: every timestamp string is parsed as ISO-8601 after the `Z`
normalization and reformatted to the fixed patterns, and every string the
parser rejects passes through verbatim in both tools (never an
exception); with concrete instances of both outcomes. -/
theorem timestamp_parse_or_verbatim :
    (∀ s : String,
      (∃ dt, pyFromIso (pyReplace s "Z" "+00:00") = some dt ∧
        CIChecker.formatTimeStr s = strftimeYmdHMS dt ∧
        SonarCloudChecker.formatDateStr s = strftimeYmdHMS dt ++ " UTC") ∨
      (pyFromIso (pyReplace s "Z" "+00:00") = none ∧
        CIChecker.formatTimeStr s = s ∧
        SonarCloudChecker.formatDateStr s = s)) ∧
    CIChecker.formatTimeStr "2024-01-15T10:30:00Z" = "2024-01-15 10:30:00" ∧
    SonarCloudChecker.formatDateStr "2024-03-01T07:05:09Z" = "2024-03-01 07:05:09 UTC" ∧
    CIChecker.formatTimeStr "not-a-date" = "not-a-date" ∧
    SonarCloudChecker.formatDateStr "Unknown" = "Unknown" := by
  refine ⟨?_, by decide, by decide, by decide, by decide⟩
  intro s
  cases h : pyFromIso (pyReplace s "Z" "+00:00") with
  | some dt =>
    exact Or.inl ⟨dt, rfl, by simp [CIChecker.formatTimeStr, h],
      by simp [SonarCloudChecker.formatDateStr, h]⟩
  | none =>
    exact Or.inr ⟨rfl, by simp [CIChecker.formatTimeStr, h],
      by simp [SonarCloudChecker.formatDateStr, h]⟩

/-- C2: gate status `"OK"` gets the healthy icon, `"ERROR"` the unhealthy
icon together with exit code 1 from the gate decision of `main`, and every
other status string gets the warning icon with exit code 0; the
`Quality Gate:` line built from this icon appears in every successfully
formatted report. -/
theorem gate_status_icon_and_exit :
    SonarCloudChecker.gateIcon "OK" = "✅" ∧
    SonarCloudChecker.gateIcon "ERROR" = "❌" ∧
    SonarCloudChecker.main_gate_exit (some "ERROR") = 1 ∧
    (∀ st : String, st ≠ "OK" → st ≠ "ERROR" →
      SonarCloudChecker.gateIcon st = "⚠️" ∧
      SonarCloudChecker.main_gate_exit (some st) = 0) ∧
    (∀ (pk : String) (comp : Option String) (d : SonarCloudChecker.Fetched)
        (ls : List String),
      SonarCloudChecker.format_status_report pk comp d = some ls →
      ("Quality Gate: " ++ SonarCloudChecker.gateIcon (d.gateStatus.getD "UNKNOWN") ++
        " " ++ d.gateStatus.getD "UNKNOWN") ∈ ls) := by
  refine ⟨by decide, by decide, by decide, ?_, ?_⟩
  · intro st h1 h2
    exact ⟨by simp [SonarCloudChecker.gateIcon, h1, h2],
      by simp [SonarCloudChecker.main_gate_exit, h2]⟩
  · intro pk comp d ls h
    simp only [SonarCloudChecker.format_status_report] at h
    cases hc : SonarCloudChecker.coverageMetricLines
        (SonarCloudChecker.measuresDict d.measures) with
    | none => rw [hc] at h; simp at h
    | some covL =>
      rw [hc] at h
      cases hf : SonarCloudChecker.fileCoverageSection d.coverageDetail with
      | none => rw [hf] at h; simp at h
      | some fl =>
        rw [hf] at h
        simp only [Option.some_bind, Option.map_some', Option.some.injEq] at h
        subst h
        simp [List.mem_append]

/-- C9 counterexample: the remote URL `https://github.com/a/b/c` does not
decompose into exactly an owner and a repository segment (it has three
segments), yet `_detect_repo` produces the pair `("a", "b")` instead of
failing with a configuration error. -/
theorem detect_repo_extra_segment_cex :
    CIChecker.detect_repo (some "https://github.com/a/b/c") =
      CIChecker.DetectOutcome.ok "a" "b" ∧
    (pySplit "a/b/c" "/").length = 3 := by decide

/-- C9 amended: the resolver extracts owner/repo from both SSH-style and
HTTPS-style GitHub remote URLs by taking the FIRST TWO path segments (so a
URL with extra segments still yields a pair); a missing remote, a
non-GitHub host, or an unsplittable URL is the configuration-error branch,
and a URL yielding fewer than two segments raises an uncaught index error
(non-zero exit through the generic handler of `main`, without the
configuration guidance). -/
theorem detect_repo_amended :
    CIChecker.detect_repo (some "git@github.com:owner/repo.git") =
      CIChecker.DetectOutcome.ok "owner" "repo" ∧
    CIChecker.detect_repo (some "https://github.com/owner/repo.git") =
      CIChecker.DetectOutcome.ok "owner" "repo" ∧
    CIChecker.detect_repo none = CIChecker.DetectOutcome.configError ∧
    CIChecker.detect_repo (some "https://gitlab.com/owner/repo.git") =
      CIChecker.DetectOutcome.configError ∧
    CIChecker.detect_repo (some "git@github.com:ownerrepo") =
      CIChecker.DetectOutcome.indexError ∧
    (∀ url owner repo,
      CIChecker.detect_repo (some url) = CIChecker.DetectOutcome.ok owner repo →
      containsSub "github.com".data (pyStrip url).data = true) ∧
    (∀ url, containsSub "github.com".data (pyStrip url).data = false →
      CIChecker.detect_repo (some url) = CIChecker.DetectOutcome.configError) ∧
    CIChecker.detect_repo (some "https://github.com") =
      CIChecker.DetectOutcome.configError ∧
    (∀ url, containsSub "github.com".data (pyStrip url).data = true →
      pyStartsWith (pyStrip url) "git@github.com:" = false →
      containsSub "github.com/".data (pyStrip url).data = false →
      CIChecker.detect_repo (some url) = CIChecker.DetectOutcome.configError) := by
  refine ⟨by decide, by decide, by decide, by decide, by decide, ?_, ?_, by decide, ?_⟩
  · intro url owner repo h
    cases hc : containsSub "github.com".data (pyStrip url).data with
    | true => rfl
    | false => simp [CIChecker.detect_repo, hc] at h
  · intro url h
    simp [CIChecker.detect_repo, h]
  · intro url h1 h2 h3
    simp [CIChecker.detect_repo, h1, h2, h3]

/-- The overall-success banner never coincides with the project line of
the combined report, whatever the project key is. -/
theorem passed_banner_ne_project_line (p : String) :
    ("✅ All checks passed!" : String) ≠ "Project: " ++ p := by
  intro h
  have h2 : ("✅ All checks passed!" : String).data.head? =
      ("Project: " ++ p).data.head? := congrArg (fun s => s.data.head?) h
  rw [show ("Project: " ++ p).data.head? = some 'P' from rfl] at h2
  exact absurd h2 (by decide)

/-- The overall-success banner is not the 70-character rule line. -/
theorem passed_banner_ne_eq70 : ("✅ All checks passed!" : String) ≠ eq70 := by decide

/-- C10: with both skip flags set, no sub-check contributes an exit code,
the collected list is empty, and the combined tool reports vacuous success
(`All checks passed`, exit 0) whatever the sub-checks would have
returned. -/
theorem both_skips_vacuous_success (ciExit sonarExit : Int) (project : String) :
    (StatusTool.main true true ciExit sonarExit project).2.2 = [] ∧
    (StatusTool.main true true ciExit sonarExit project).1 = 0 ∧
    "✅ All checks passed!" ∈ (StatusTool.main true true ciExit sonarExit project).2.1 := by
  refine ⟨?_, ?_, ?_⟩ <;> simp [StatusTool.main, List.mem_append]

/-- C3: with neither skip flag set both sub-check exit codes are always
collected (no short-circuiting), the combined exit code is 0 — and the
`All checks passed` banner printed — exactly when both collected codes are
0; otherwise the tool exits 1, prints the failure banner, and names each
sub-check as passed or failed according to its own code. -/
theorem combined_check_no_skip (ciExit sonarExit : Int) (project : String) :
    (StatusTool.main false false ciExit sonarExit project).2.2 = [ciExit, sonarExit] ∧
    ((StatusTool.main false false ciExit sonarExit project).1 = 0 ↔
      (ciExit = 0 ∧ sonarExit = 0)) ∧
    ("✅ All checks passed!" ∈ (StatusTool.main false false ciExit sonarExit project).2.1 ↔
      (ciExit = 0 ∧ sonarExit = 0)) ∧
    (¬(ciExit = 0 ∧ sonarExit = 0) →
      (StatusTool.main false false ciExit sonarExit project).1 = 1 ∧
      "❌ Some checks failed!" ∈
        (StatusTool.main false false ciExit sonarExit project).2.1 ∧
      (ciExit ≠ 0 →
        "  CI: ❌ FAILED" ∈ (StatusTool.main false false ciExit sonarExit project).2.1) ∧
      (sonarExit ≠ 0 →
        "  SonarCloud: ❌ FAILED" ∈
          (StatusTool.main false false ciExit sonarExit project).2.1) ∧
      (ciExit = 0 →
        "  CI: ✅ PASSED" ∈ (StatusTool.main false false ciExit sonarExit project).2.1) ∧
      (sonarExit = 0 →
        "  SonarCloud: ✅ PASSED" ∈
          (StatusTool.main false false ciExit sonarExit project).2.1)) := by
  by_cases h1 : ciExit = 0 <;> by_cases h2 : sonarExit = 0 <;>
    simp [StatusTool.main, StatusTool.print_section_header, h1, h2, List.mem_append,
      passed_banner_ne_eq70, passed_banner_ne_project_line project]

/-- C1: a present coverage value renders with the three-tier icon whose
thresholds are inclusive on the upper side (at least 80 good, at least 60
and below 80 warn, below 60 poor) — with the boundary instances 80.0,
79.9 and 59.9 — while an absent coverage metric renders the distinct
`No data` line, which differs from the line a coverage of zero renders. -/
theorem coverage_icon_inclusive_tiers :
    (∀ (measures : List (String × String)) (s : String) (v : Deci),
      SonarCloudChecker.dictGet measures "coverage" "N/A" = s →
      pyFloat s = some v →
      SonarCloudChecker.coverageMetricLines measures =
        some ["  Coverage: " ++ SonarCloudChecker.covIcon v ++ " " ++ s ++ "%"]) ∧
    (∀ v : Deci, v.geInt 80 = true → SonarCloudChecker.covIcon v = "✅") ∧
    (∀ v : Deci, v.geInt 80 = false → v.geInt 60 = true →
      SonarCloudChecker.covIcon v = "⚠️") ∧
    (∀ v : Deci, v.geInt 60 = false → SonarCloudChecker.covIcon v = "❌") ∧
    (∀ measures : List (String × String),
      SonarCloudChecker.dictGet measures "coverage" "N/A" = "N/A" →
      SonarCloudChecker.coverageMetricLines measures =
        some ["  Coverage: ❌ No data"]) ∧
    pyFloat "80.0" = some ⟨800, 1⟩ ∧ SonarCloudChecker.covIcon ⟨800, 1⟩ = "✅" ∧
    pyFloat "79.9" = some ⟨799, 1⟩ ∧ SonarCloudChecker.covIcon ⟨799, 1⟩ = "⚠️" ∧
    pyFloat "59.9" = some ⟨599, 1⟩ ∧ SonarCloudChecker.covIcon ⟨599, 1⟩ = "❌" ∧
    SonarCloudChecker.coverageMetricLines [("coverage", "0.0")] =
      some ["  Coverage: ❌ 0.0%"] ∧
    ("  Coverage: ❌ No data" : String) ≠ "  Coverage: ❌ 0.0%" := by
  refine ⟨?_, ?_, ?_, ?_, ?_, by decide, by decide, by decide, by decide,
    by decide, by decide, by decide, by decide⟩
  · intro measures s v hs hv
    have hna : s ≠ "N/A" := by
      intro he
      subst he
      rw [show pyFloat "N/A" = none from by decide] at hv
      exact Option.noConfusion hv
    simp [SonarCloudChecker.coverageMetricLines, hs, hv, hna]
  · intro v h
    simp [SonarCloudChecker.covIcon, h]
  · intro v h80 h60
    simp [SonarCloudChecker.covIcon, h80, h60]
  · intro v h
    have h80 : v.geInt 80 = false := by
      unfold Deci.geInt at h ⊢
      simp only [decide_eq_false_iff_not] at h ⊢
      intro hle
      exact h (le_trans
        (mul_le_mul_of_nonneg_right (by norm_num : (60 : ℤ) ≤ 80)
          (pow_nonneg (by norm_num) v.shift)) hle)
    simp [SonarCloudChecker.covIcon, h80, h]
  · intro measures hm
    simp [SonarCloudChecker.coverageMetricLines, hm]

/-- C4 counterexample: in the file-coverage section of
`twoFileCoverageSample` both entries have coverage data, and the entry
with path `b.py` is displayed before the entry with path `a.py` even
though `a.py` precedes `b.py` lexicographically: the groups are sorted on
the whole formatted line, whose first character is the status icon, not
on the file path. -/
theorem file_coverage_path_order_cex :
    SonarCloudChecker.fileCoverageSection twoFileCoverageSample =
      some ["File Coverage:", dash70,
        "  ✅ b.py: 90.0% (10 lines, 1 uncovered)",
        "  ❌ a.py: 50.0% (10 lines, 5 uncovered)",
        "", "Total Files: 2", "With Coverage: 2", "Without Coverage: 0"] ∧
    lexLtB "a.py".data "b.py".data = true := by decide

/-- C4 amended: the file-coverage section lists the group of entries with
coverage data, then the group without, separated by one blank line
exactly when both groups are non-empty; each displayed group is the
sorted permutation of its fetched group under the code-point order on the
FULL FORMATTED LINES (icon first, then path) — not under the order of the
file paths alone. -/
theorem file_coverage_section_structure
    (cd : List SonarCloudChecker.Component) (ws wos : List String)
    (hp : SonarCloudChecker.partitionFiles cd = some (ws, wos))
    (hne : cd ≠ []) :
    SonarCloudChecker.fileCoverageSection cd =
      some (["File Coverage:", dash70] ++ pySorted ws ++
        (if ws ≠ [] ∧ wos ≠ [] then [""] else []) ++ pySorted wos ++
        ["", "Total Files: " ++ Nat.repr cd.length,
          "With Coverage: " ++ Nat.repr ws.length,
          "Without Coverage: " ++ Nat.repr wos.length]) ∧
    (pySorted ws).Sorted strLe ∧ (pySorted ws).Perm ws ∧
    (pySorted wos).Sorted strLe ∧ (pySorted wos).Perm wos := by
  refine ⟨?_, pySorted_sorted ws, pySorted_perm ws, pySorted_sorted wos,
    pySorted_perm wos⟩
  have hne' : cd.isEmpty = false := by
    cases cd with
    | nil => exact absurd rfl hne
    | cons a t => rfl
  simp only [SonarCloudChecker.fileCoverageSection, hne', hp, Bool.false_eq_true,
    not_false_iff, if_true, Option.map_some', Option.some.injEq]
  by_cases hw : ws = [] <;> by_cases ho : wos = [] <;>
    simp [hw, ho, pySorted, List.append_assoc]

/-- C4 amended, instantiated at the two-entry sample. -/
theorem file_coverage_section_structure_witness :
    SonarCloudChecker.fileCoverageSection twoFileCoverageSample =
      some (["File Coverage:", dash70] ++ pySorted sampleWithLines ++
        (if sampleWithLines ≠ [] ∧ sampleWithoutLines ≠ [] then [""] else []) ++
        pySorted sampleWithoutLines ++
        ["", "Total Files: " ++ Nat.repr twoFileCoverageSample.length,
          "With Coverage: " ++ Nat.repr sampleWithLines.length,
          "Without Coverage: " ++ Nat.repr sampleWithoutLines.length]) ∧
    (pySorted sampleWithLines).Sorted strLe ∧
    (pySorted sampleWithLines).Perm sampleWithLines ∧
    (pySorted sampleWithoutLines).Sorted strLe ∧
    (pySorted sampleWithoutLines).Perm sampleWithoutLines :=
  file_coverage_section_structure twoFileCoverageSample sampleWithLines
    sampleWithoutLines (by decide) (by decide)
